import Mathlib

/-!
Verification of `avocado/utils/pci.py`.

Python strings are modelled as lists of characters (`PyStr`), so that every
string operation is a structural recursion the kernel can evaluate.  Each
`py...` helper below embeds one Python primitive used by the source; the
functions named after the source (`get_pci_info`, `get_mask`, `bind`, ...)
mirror the corresponding Python function line by line, with the results of
external commands and sysfs reads passed in as explicit arguments.
-/

/-- A Python string, as a list of characters. -/
abbrev PyStr := List Char

/-- Boundary conversion from a Lean string literal to the character-list model. -/
def pystr (s : String) : PyStr := s.data

/-- Split on every character satisfying the predicate, keeping empty pieces:
the behaviour of Python `s.split(sep)` with an explicit one-character separator. -/
def splitP (p : Char → Bool) : PyStr → List PyStr
  | [] => [[]]
  | c :: cs =>
    let rest := splitP p cs
    if p c then [] :: rest
    else
      match rest with
      | [] => [[c]]
      | r :: rs => (c :: r) :: rs

/-- Python `s.split(sep)` for a one-character separator `sep`. -/
def splitChar (sep : Char) (s : PyStr) : List PyStr :=
  splitP (fun c => decide (c = sep)) s

/-- Python `s.strip()` (for the ASCII whitespace appearing in this module's data). -/
def pyStrip (s : PyStr) : PyStr :=
  ((s.dropWhile Char.isWhitespace).reverse.dropWhile Char.isWhitespace).reverse

/-- Python `s.splitlines()` for text whose only line separator is the newline
character: split on newline, with no final empty piece for a trailing newline. -/
def pySplitLines (s : PyStr) : List PyStr :=
  if s = [] then []
  else
    let parts := splitChar '\n' s
    if parts.getLast? = some [] then parts.dropLast else parts

/-- Python `sub in s`: substring containment. -/
def pyContains (s sub : PyStr) : Bool :=
  s.tails.any (fun t => sub.isPrefixOf t)

/-- Python `s.split()` with no separator: split on whitespace runs, dropping
empty pieces. -/
def pyWords (s : PyStr) : List PyStr :=
  (splitP Char.isWhitespace s).filter (fun w => !w.isEmpty)

/-- Python `sep.join(pieces)` for a one-character separator. -/
def joinChar (sep : Char) (pieces : List PyStr) : PyStr :=
  List.intercalate [sep] pieces

/-- Python `s.startswith(pre)`. -/
def pyStartsWith (s pre : PyStr) : Bool :=
  pre.isPrefixOf s

/-- Python `hex(n)` for a non-negative integer. -/
def pyHex (n : Nat) : PyStr :=
  '0' :: 'x' :: Nat.toDigits 16 n

/-- Python `int(s)` on a non-negative decimal string: `none` models the
`ValueError` raised on anything that is not a digit string. -/
def pyParseNat (s : PyStr) : Option Nat :=
  let t := pyStrip s
  if t ≠ [] ∧ t.all Char.isDigit then
    some (t.foldl (fun n c => n * 10 + (c.toNat - 48)) 0)
  else none

/-- The exceptions the embedded Python code can raise. -/
inductive PyError where
  | valueError (msg : PyStr)
  | keyError
  | indexError
  | attributeError
  | unboundLocalError
  | ioError
  deriving DecidableEq

/-- A Python dict with string keys and values: an insertion-ordered
association list with no duplicate keys. -/
abbrev PyDict := List (PyStr × PyStr)

/-- Python `d[k] = v`: overwrite in place if the key is present (keeping its
original position), else append at the end. -/
def dictInsert : PyDict → PyStr → PyStr → PyDict
  | [], k, v => [(k, v)]
  | (a, b) :: t, k, v => if a = k then (k, v) :: t else (a, b) :: dictInsert t k v

/-- Python `d.get(k)`: the stored value of the key, if present. -/
def dictGet : PyDict → PyStr → Option PyStr
  | [], _ => none
  | (a, b) :: t, k => if k = a then some b else dictGet t k

/-- The keys of the dict, in insertion order. -/
def dictKeys (d : PyDict) : List PyStr := d.map Prod.fst

/-- Key of one colon-table line: `line.split(":")[0].strip()`. -/
def pciLineKey (line : PyStr) : PyStr :=
  pyStrip ((splitChar ':' line).headD [])

/-- Value of one colon-table line: `(":".join(line.split(":")[1:])).strip()`. -/
def pciLineVal (line : PyStr) : PyStr :=
  pyStrip (joinChar ':' ((splitChar ':' line).drop 1))

/-- The loop body of `get_pci_info`: skip blank lines, otherwise assign
`pci_info[key] = value`. -/
def pciInfoStep (d : PyDict) (line : PyStr) : PyDict :=
  if pyStrip line = [] then d else dictInsert d (pciLineKey line) (pciLineVal line)

/-- The line loop of `get_pci_info` over already-split lines. -/
def get_pci_info_lines (lines : List PyStr) : PyDict :=
  lines.foldl pciInfoStep []

/-- `get_pci_info`, as a function of the text produced by
`lspci -Dnvmm -s {pci_address}`: `None` on empty output, else the colon-table
dict built line by line. -/
def get_pci_info (output : PyStr) : Option PyDict :=
  if output = [] then none else some (get_pci_info_lines (pySplitLines output))

/-- The fixed class-ID to subsystem-name table of `get_pci_class_name`. -/
def pci_class_dic : PyDict :=
  [(pystr "0104", pystr "scsi_host"),
   (pystr "0c04", pystr "fc_host"),
   (pystr "0200", pystr "net"),
   (pystr "0108", pystr "nvme"),
   (pystr "0280", pystr "net"),
   (pystr "0207", pystr "net"),
   (pystr "0c03", pystr "usb")]

/-- `get_pci_class_name`, as a function of the result of
`get_pci_prop(pci_address, "Class")` (`none` models Python `None`): a lookup
in the fixed table, raising `ValueError` on a missing Class property and on
any class ID outside the table. -/
def get_pci_class_name (pci_address : PyStr) (pci_class_id : Option PyStr) :
    Except PyError PyStr :=
  match pci_class_id with
  | none =>
    .error (.valueError (pystr "Unable to get \x27Class\x27 property of given pci address "
      ++ pci_address))
  | some cid =>
    match dictGet pci_class_dic cid with
    | some name => .ok name
    | none =>
      .error (.valueError (pystr "Class ID " ++ cid ++
        pystr " is not defined in this library please send an update"))

/-- The unit-multiplier dict of `get_mask`. -/
def mask_dic : List (Char × Nat) := [('K', 1024), ('M', 1048576), ('G', 1073741824)]

/-- Python `dic[c]` on the unit-multiplier dict (`none` models `KeyError`). -/
def maskDicGet : List (Char × Nat) → Char → Option Nat
  | [], _ => none
  | (a, n) :: t, c => if c = a then some n else maskDicGet t c

/-- `get_mask`, as a function of the text produced by `lspci -vv -s`:
`None` on empty output; otherwise the first line containing both Region and
Memory at yields the size token between the last equals sign and the
following closing bracket, and the mask is hex of (size - 1) xor 0xffffffff.
When no line matches, the loop never assigns `memory_size`, and the final
expression raises `UnboundLocalError`.  The sizes printed by lspci are
positive, so the arithmetic is modelled on natural numbers. -/
def get_mask (output : PyStr) : Except PyError (Option PyStr) :=
  if output = [] then .ok none
  else
    match (pySplitLines output).find? (fun line =>
        pyContains line (pystr "Region") && pyContains line (pystr "Memory at")) with
    | none => .error .unboundLocalError
    | some line =>
      let val := (splitChar ']' ((splitChar '=' line).getLastD [])).headD []
      match pyParseNat val.dropLast with
      | none => .error (.valueError (pystr "invalid literal for int"))
      | some n =>
        match val.getLast? with
        | none => .error .indexError
        | some unit =>
          match maskDicGet mask_dic unit with
          | none => .error .keyError
          | some mult => .ok (some (pyHex ((n * mult - 1) ^^^ 4294967295)))

/-- Python `line.rsplit(None, 1)[-1]`: the last whitespace-separated token,
raising `IndexError` on a line with no words. -/
def pyRsplitLastToken (s : PyStr) : Except PyError PyStr :=
  match (pyWords s).getLast? with
  | some w => .ok w
  | none => .error .indexError

/-- The line loop of `get_driver`: the last token of the first line containing
the Kernel driver in use marker, else `None`. -/
def get_driver_loop : List PyStr → Except PyError (Option PyStr)
  | [] => .ok none
  | line :: rest =>
    if pyContains line (pystr "Kernel driver in use:") then
      (pyRsplitLastToken line).map some
    else get_driver_loop rest

/-- `get_driver`, as a function of the `lspci -ks` output. -/
def get_driver (output : PyStr) : Except PyError (Option PyStr) :=
  if output = [] then .ok none else get_driver_loop (pySplitLines output)

/-- The line loop of `get_memory_address`: `0x` prepended to the third token
of the first line containing Memory at, else `None`. -/
def get_memory_address_loop : List PyStr → Except PyError (Option PyStr)
  | [] => .ok none
  | line :: rest =>
    if pyContains line (pystr "Memory at") then
      match (pyWords line)[2]? with
      | some tok => .ok (some (pystr "0x" ++ tok))
      | none => .error .indexError
    else get_memory_address_loop rest

/-- `get_memory_address`, as a function of the `lspci -bv -s` output. -/
def get_memory_address (output : PyStr) : Except PyError (Option PyStr) :=
  if output = [] then .ok none else get_memory_address_loop (pySplitLines output)

/-- The line loop of `get_iommu_group`: the third space-separated field of the
stripped first line containing IOMMU group; when no line matches, the source
raises `ValueError` naming the address. -/
def get_iommu_group_loop (full_pci_address : PyStr) :
    List PyStr → Except PyError PyStr
  | [] => .error (.valueError (full_pci_address ++ pystr " group not found"))
  | line :: rest =>
    if pyContains line (pystr "IOMMU group") then
      match (splitChar ' ' (pyStrip line))[2]? with
      | some tok => .ok tok
      | none => .error .indexError
    else get_iommu_group_loop full_pci_address rest

/-- `get_iommu_group`, as a function of the `lspci -vvvv -s` output; the
source iterates over `output.split` on the newline character. -/
def get_iommu_group (full_pci_address output : PyStr) : Except PyError PyStr :=
  get_iommu_group_loop full_pci_address (splitChar '\n' output)

/-- Modelled from the spec: `wait.wait_for(predicate, timeout)` is not under
src; per the spec it re-evaluates the predicate on a short interval until it
is true or the timeout elapses and returns whether it became true, never
raising on timeout.  The successive evaluations of the predicate during the
window are passed as the list `polls`, so the result is whether any
evaluation was true. -/
def wait_for (polls : List Bool) (_timeout : Nat) : Bool :=
  polls.any id

/-- Modelled from the spec: `wait_for` over a predicate that can raise (the
change-domain check): stop at the first evaluation that is true or raises;
an exhausted window is a false result. -/
def waitForE : List (Except PyError Bool) → Except PyError Bool
  | [] => .ok false
  | c :: cs =>
    match c with
    | .error e => .error e
    | .ok true => .ok true
    | .ok false => waitForE cs

/-- `unbind`: write the address to the unbind control file (`writeOk` is the
outcome of `write_file_or_fail`), then raise iff `wait_for` sees the bound
path /sys/bus/pci/drivers/driver/address existing; `polls` are the
successive `os.path.exists` results during the window. -/
def unbind (driver full_pci_address : PyStr) (writeOk : Bool) (polls : List Bool) :
    Except PyError Unit :=
  if !writeOk then .error .ioError
  else if wait_for polls 5 then
    .error (.valueError (pystr "Not able to unbind " ++ full_pci_address ++
      pystr " from " ++ driver))
  else .ok ()

/-- `bind`: write the address to the bind control file, then raise iff
`wait_for` never sees the bound path existing. -/
def pci_bind (driver full_pci_address : PyStr) (writeOk : Bool) (polls : List Bool) :
    Except PyError Unit :=
  if !writeOk then .error .ioError
  else if !wait_for polls 5 then
    .error (.valueError (pystr "Not able to bind " ++ full_pci_address ++
      pystr " to " ++ driver))
  else .ok ()

/-- `reset_check`: whether `lspci -vvs` produced output. -/
def reset_check (output : PyStr) : Bool :=
  !output.isEmpty

/-- `rescan_check`: whether `lspci -vvs` produced output. -/
def rescan_check (output : PyStr) : Bool :=
  !output.isEmpty

/-- `reset`: write 1 to the remove control file, then raise iff `wait_for`
over the successive `reset_check` results (one lspci output per poll) is
false. -/
def reset (full_pci_address : PyStr) (writeOk : Bool) (outputs : List PyStr) :
    Except PyError Unit :=
  if !writeOk then .error .ioError
  else if !wait_for (outputs.map reset_check) 5 then
    .error (.valueError (pystr "Unsuccessful to remove " ++ full_pci_address))
  else .ok ()

/-- `rescan`: write 1 to /sys/bus/pci/rescan, then raise iff `wait_for` over
the successive `rescan_check` results is false. -/
def rescan (full_pci_address : PyStr) (writeOk : Bool) (outputs : List PyStr) :
    Except PyError Unit :=
  if !writeOk then .error .ioError
  else if !wait_for (outputs.map rescan_check) 5 then
    .error (.valueError (pystr "Unsuccessful to rescan for " ++ full_pci_address))
  else .ok ()

/-- `change_domain_check`: read one line of .../iommu_group/type (`none`
models an OSError, re-raised as ValueError; the OSError detail text is
abstracted away), take its last whitespace token, and compare against the
requested and default domains. -/
def change_domain_check (dom def_dom : PyStr) (readLine : Option PyStr) :
    Except PyError Bool :=
  match readLine with
  | none => .error (.valueError (pystr "Change domain check failed"))
  | some output =>
    match (pyWords output).getLast? with
    | none => .error .indexError
    | some out =>
      if (dom ≠ pystr "auto" ∧ dom ≠ out) ∨ (dom = pystr "auto" ∧ out ≠ def_dom) then
        .ok false
      else .ok true

/-- `change_domain`: write the domain to the type control file, then raise
iff the polled `change_domain_check` never returns true; a check that raises
propagates its exception.  `reads` are the successive file reads seen by the
check during the window. -/
def change_domain (dom def_dom full_pci_address : PyStr) (writeOk : Bool)
    (reads : List (Option PyStr)) : Except PyError Unit :=
  if !writeOk then .error .ioError
  else
    match waitForE (reads.map (change_domain_check dom def_dom)) with
    | .error e => .error e
    | .ok true => .ok ()
    | .ok false =>
      .error (.valueError (pystr "Domain type change failed for " ++ full_pci_address))

/-- Modelled from the spec: the sysfs driver-binding state, as the predicate
telling for each driver and address whether the bound path
/sys/bus/pci/drivers/driver/address exists. -/
def SysfsBound := PyStr → PyStr → Bool

/-- Modelled from the spec: the kernel's reaction to writing the address into
the driver's bind control file: the bound path now exists. -/
def kernelBindWrite (s : SysfsBound) (driver addr : PyStr) : SysfsBound :=
  fun d a => if d = driver ∧ a = addr then true else s d a

/-- Modelled from the spec: the kernel's reaction to writing the address into
the driver's unbind control file: the bound path no longer exists. -/
def kernelUnbindWrite (s : SysfsBound) (driver addr : PyStr) : SysfsBound :=
  fun d a => if d = driver ∧ a = addr then false else s d a

/-- `bind` acting on the modelled sysfs state: perform the bind write, then
poll the bound path, which is stable in this deterministic model. -/
def bindState (s : SysfsBound) (driver addr : PyStr) : Except PyError SysfsBound :=
  let s1 := kernelBindWrite s driver addr
  if s1 driver addr then .ok s1
  else .error (.valueError (pystr "Not able to bind " ++ addr ++ pystr " to " ++ driver))

/-- `unbind` acting on the modelled sysfs state: perform the unbind write,
then poll the bound path, raising if it still exists. -/
def unbindState (s : SysfsBound) (driver addr : PyStr) : Except PyError SysfsBound :=
  let s1 := kernelUnbindWrite s driver addr
  if s1 driver addr then
    .error (.valueError (pystr "Not able to unbind " ++ addr ++ pystr " from " ++ driver))
  else .ok s1

/-- Bind then unbind on the same driver and address pair. -/
def bindThenUnbind (s : SysfsBound) (driver addr : PyStr) : Except PyError SysfsBound :=
  match bindState s driver addr with
  | .ok s1 => unbindState s1 driver addr
  | .error e => .error e

/-- Unbind then bind on the same driver and address pair. -/
def unbindThenBind (s : SysfsBound) (driver addr : PyStr) : Except PyError SysfsBound :=
  match unbindState s driver addr with
  | .ok s1 => bindState s1 driver addr
  | .error e => .error e

/-- The line loop of `get_pci_addresses`, with `classOf` the result of
`get_pci_prop(token, "Class")` per first token: a blank line raises
IndexError at `line.split()[0]`; a missing Class property raises
AttributeError at `None.startswith`; otherwise the first token is kept
unless its class starts with 06. -/
def get_pci_addresses_loop (classOf : PyStr → Option PyStr) :
    List PyStr → List PyStr → Except PyError (List PyStr)
  | acc, [] => .ok acc
  | acc, line :: rest =>
    match (pyWords line).head? with
    | none => .error .indexError
    | some tok =>
      match classOf tok with
      | none => .error .attributeError
      | some cls =>
        if !pyStartsWith cls (pystr "06") then
          get_pci_addresses_loop classOf (acc ++ [tok]) rest
        else get_pci_addresses_loop classOf acc rest

/-- `get_pci_addresses`, as a function of the `lspci -D` output and of the
per-address Class property; the final conditional of the source returns the
accumulated list in both branches. -/
def get_pci_addresses (classOf : PyStr → Option PyStr) (output : PyStr) :
    Except PyError (List PyStr) :=
  get_pci_addresses_loop classOf [] (pySplitLines output)

/-- The selection the claim describes: the first token of each line kept
exactly when its class does not start with 06, in line order. -/
def pciAddressSelection (classOf : PyStr → Option PyStr) (lines : List PyStr) :
    List PyStr :=
  lines.filterMap fun l =>
    match classOf ((pyWords l).headD []) with
    | some cls =>
      if !pyStartsWith cls (pystr "06") then some ((pyWords l).headD []) else none
    | none => none

theorem dictGet_dictInsert (d : PyDict) (k q v : PyStr) :
    dictGet (dictInsert d q v) k = if k = q then some v else dictGet d k := by
  induction d with
  | nil => simp [dictInsert, dictGet]
  | cons hd tl ih =>
    obtain ⟨a, b⟩ := hd
    by_cases haq : a = q
    · subst haq
      by_cases hka : k = a
      · simp [dictInsert, dictGet, hka]
      · simp [dictInsert, dictGet, hka]
    · by_cases hka : k = a
      · have hkq : k ≠ q := fun h => haq ((hka.symm.trans h))
        simp [dictInsert, dictGet, haq, hka, hkq]
      · simp [dictInsert, dictGet, haq, hka, ih]

theorem mem_dictKeys_dictInsert (d : PyDict) (k q v : PyStr) :
    k ∈ dictKeys (dictInsert d q v) ↔ k = q ∨ k ∈ dictKeys d := by
  induction d with
  | nil => simp [dictInsert, dictKeys]
  | cons hd tl ih =>
    obtain ⟨a, b⟩ := hd
    by_cases haq : a = q
    · subst haq
      simp [dictInsert, dictKeys]
    · simp [dictInsert, dictKeys, haq] at ih ⊢
      tauto

theorem foldl_pciInfoStep_filter (lines : List PyStr) : ∀ d : PyDict,
    (lines.filter fun l => !(pyStrip l).isEmpty).foldl pciInfoStep d =
      lines.foldl pciInfoStep d := by
  induction lines with
  | nil =>
    intro d
    rfl
  | cons l ls ih =>
    intro d
    by_cases h : pyStrip l = []
    · simp [List.filter_cons, h, pciInfoStep, ih]
    · simp [List.filter_cons, h, pciInfoStep, ih]

theorem mem_dictKeys_foldl (lines : List PyStr) : ∀ (d : PyDict) (k : PyStr),
    k ∈ dictKeys (lines.foldl pciInfoStep d) ↔
      k ∈ dictKeys d ∨
        k ∈ (lines.filter fun l => !(pyStrip l).isEmpty).map pciLineKey := by
  induction lines with
  | nil =>
    intro d k
    simp
  | cons l ls ih =>
    intro d k
    by_cases h : pyStrip l = []
    · simp [List.filter_cons, h, pciInfoStep, ih]
    · simp only [List.foldl_cons, List.filter_cons, h]
      rw [ih]
      simp [pciInfoStep, h, mem_dictKeys_dictInsert]
      tauto

theorem dictGet_foldl_last (lines : List PyStr) (k : PyStr) : ∀ d : PyDict,
    dictGet (lines.foldl pciInfoStep d) k =
      (match (lines.filter
          fun l => !(pyStrip l).isEmpty && decide (pciLineKey l = k)).getLast? with
        | some l => some (pciLineVal l)
        | none => dictGet d k) := by
  induction lines with
  | nil =>
    intro d
    rfl
  | cons l ls ih =>
    intro d
    by_cases hb : pyStrip l = []
    · simp only [List.foldl_cons, List.filter_cons, hb]
      rw [ih]
      simp [pciInfoStep, hb]
    · by_cases hk : pciLineKey l = k
      · rw [List.foldl_cons, ih]
        have hfc : (l :: ls).filter
            (fun l => !(pyStrip l).isEmpty && decide (pciLineKey l = k)) =
              l :: ls.filter (fun l => !(pyStrip l).isEmpty && decide (pciLineKey l = k)) := by
          simp [List.filter_cons, hb, hk]
        rw [hfc]
        cases hls : ls.filter (fun l => !(pyStrip l).isEmpty && decide (pciLineKey l = k)) with
        | nil => simp [pciInfoStep, hb, dictGet_dictInsert, hk]
        | cons x xs =>
          rw [List.getLast?_cons_cons]
          obtain ⟨y, hy⟩ : ∃ y, (x :: xs).getLast? = some y := by
            cases hgl : (x :: xs).getLast? with
            | some y => exact ⟨y, rfl⟩
            | none => simp [List.getLast?_eq_none_iff] at hgl
          rw [hy]
      · rw [List.foldl_cons, ih]
        have hfc : (l :: ls).filter
            (fun l => !(pyStrip l).isEmpty && decide (pciLineKey l = k)) =
              ls.filter (fun l => !(pyStrip l).isEmpty && decide (pciLineKey l = k)) := by
          simp [List.filter_cons, hk]
        rw [hfc]
        have hk2 : k ≠ pciLineKey l := fun h => hk h.symm
        cases hls : ls.filter (fun l => !(pyStrip l).isEmpty && decide (pciLineKey l = k)) with
        | nil => simp [pciInfoStep, hb, dictGet_dictInsert, hk2]
        | cons x xs =>
          obtain ⟨y, hy⟩ : ∃ y, (x :: xs).getLast? = some y := by
            cases hgl : (x :: xs).getLast? with
            | some y => exact ⟨y, rfl⟩
            | none => simp [List.getLast?_eq_none_iff] at hgl
          rw [hy]

/-- C3 is false as stated: on the record text with the key A on two lines with
values 1 and 2, `get_pci_info` maps A to the trimmed value of the second
(last) occurrence, 2, not the trimmed value of the first occurrence, 1. -/
theorem c3_counterexample :
    pciLineVal (pystr "A: 1") = pystr "1" ∧
    (get_pci_info (pystr "A: 1\nA: 2")).map (fun d => dictGet d (pystr "A")) =
      some (some (pystr "2")) ∧
    pystr "2" ≠ pystr "1" := by decide

/-- C3 (amended): for every colon-table input text in which the same key
appears on more than one line of one record, the colon-table parser
`get_pci_info` maps that key to the trimmed value of the last occurrence
(each later line overwrites the stored value of its key). -/
theorem c3_last_occurrence_wins (output k : PyStr) (d : PyDict)
    (h : get_pci_info output = some d) :
    dictGet d k =
      (match ((pySplitLines output).filter
          fun l => !(pyStrip l).isEmpty && decide (pciLineKey l = k)).getLast? with
        | some l => some (pciLineVal l)
        | none => none) := by
  unfold get_pci_info at h
  by_cases ho : output = []
  · rw [if_pos ho] at h
    exact absurd h (by simp)
  · rw [if_neg ho] at h
    have hd : d = get_pci_info_lines (pySplitLines output) := (Option.some_inj.mp h).symm
    subst hd
    unfold get_pci_info_lines
    rw [dictGet_foldl_last]
    cases hls : ((pySplitLines output).filter
        fun l => !(pyStrip l).isEmpty && decide (pciLineKey l = k)).getLast? with
    | none => rfl
    | some x => rfl

/-- Witness for C3 (amended) at the concrete two-line record text. -/
theorem c3_last_occurrence_wins_witness :
    dictGet [(pystr "A", pystr "2")] (pystr "A") =
      (match ((pySplitLines (pystr "A: 1\nA: 2")).filter
          fun l => !(pyStrip l).isEmpty && decide (pciLineKey l = pystr "A")).getLast? with
        | some l => some (pciLineVal l)
        | none => none) :=
  c3_last_occurrence_wins (pystr "A: 1\nA: 2") (pystr "A")
    [(pystr "A", pystr "2")] (by decide)

/-- C8: the colon-table parser applied to the two-line Vendor/Device text
yields exactly that mapping; for every colon-table line list the recovered
key set is exactly the set of keys of the non-blank lines; and the parse
result is unchanged under inserting or removing blank lines (any two line
lists with the same non-blank lines parse identically). -/
theorem c8_colon_table_parse :
    (get_pci_info (pystr "Vendor: 0x1234\nDevice: 0x5678\n") =
      some [(pystr "Vendor", pystr "0x1234"), (pystr "Device", pystr "0x5678")]) ∧
    (∀ (lines : List PyStr) (k : PyStr),
      k ∈ dictKeys (get_pci_info_lines lines) ↔
        k ∈ (lines.filter fun l => !(pyStrip l).isEmpty).map pciLineKey) ∧
    (∀ la lb : List PyStr,
      la.filter (fun l => !(pyStrip l).isEmpty) =
          lb.filter (fun l => !(pyStrip l).isEmpty) →
        get_pci_info_lines la = get_pci_info_lines lb) := by
  refine ⟨by decide, ?_, ?_⟩
  · intro lines k
    have h := mem_dictKeys_foldl lines [] k
    simpa [get_pci_info_lines, dictKeys] using h
  · intro la lb h
    unfold get_pci_info_lines
    rw [← foldl_pciInfoStep_filter la, ← foldl_pciInfoStep_filter lb, h]

/-- Witness for C8: inserting a blank line does not change the parse. -/
theorem c8_colon_table_parse_witness :
    get_pci_info_lines [pystr "A: 1", pystr "  "] = get_pci_info_lines [pystr "A: 1"] :=
  c8_colon_table_parse.2.2 [pystr "A: 1", pystr "  "] [pystr "A: 1"] (by decide)

/-- C5: `get_pci_class_name` is a pure function of the class ID: every key of
the fixed table is mapped to its table value, concretely 0104 to scsi_host,
and every class ID outside the table raises ValueError, concretely ffff. -/
theorem c5_get_pci_class_name (addr : PyStr) :
    (∀ cid name, dictGet pci_class_dic cid = some name →
      get_pci_class_name addr (some cid) = .ok name) ∧
    (∀ cid, dictGet pci_class_dic cid = none →
      get_pci_class_name addr (some cid) =
        .error (.valueError (pystr "Class ID " ++ cid ++
          pystr " is not defined in this library please send an update"))) ∧
    get_pci_class_name addr (some (pystr "0104")) = .ok (pystr "scsi_host") ∧
    get_pci_class_name addr (some (pystr "ffff")) =
      .error (.valueError (pystr "Class ID " ++ pystr "ffff" ++
        pystr " is not defined in this library please send an update")) := by
  refine ⟨?_, ?_, rfl, rfl⟩
  · intro cid name h
    dsimp only [get_pci_class_name]
    rw [h]
  · intro cid h
    dsimp only [get_pci_class_name]
    rw [h]

/-- Witness for C5 at the class ID 0c03 of the fixed table. -/
theorem c5_get_pci_class_name_witness :
    get_pci_class_name (pystr "0000:01:00.0") (some (pystr "0c03")) =
      .ok (pystr "usb") :=
  (c5_get_pci_class_name (pystr "0000:01:00.0")).1 (pystr "0c03") (pystr "usb") (by decide)

/-- C4 names a code bug: on non-empty lspci output with no line containing
both Region and Memory at, the loop of `get_mask` never assigns
`memory_size`, yet the line after the loop reads it, so the source raises
UnboundLocalError instead of returning None as the spec requires. -/
theorem c4_get_mask_unbound_local :
    pystr "Flags: bus master, fast devsel, latency 0" ≠ [] ∧
    get_mask (pystr "Flags: bus master, fast devsel, latency 0") =
      .error .unboundLocalError :=
  ⟨by decide, rfl⟩

/-- C7: on a first Region/Memory-at line carrying the size token 256M,
`get_mask` computes memory_size = 256 * 1048576 = 268435456 and returns
hex(268435455 xor 4294967295), which is the string 0xf0000000. -/
theorem c7_get_mask_256M :
    get_mask
        (pystr "\tRegion 0: Memory at 90000000 (32-bit, non-prefetchable) [size=256M]") =
      .ok (some (pyHex (268435455 ^^^ 4294967295))) ∧
    (256 * 1048576 : Nat) = 268435456 ∧
    pyHex (268435455 ^^^ 4294967295) = pystr "0xf0000000" :=
  ⟨rfl, rfl, by decide⟩

theorem get_driver_loop_no_marker (lines : List PyStr)
    (h : ∀ l ∈ lines, pyContains l (pystr "Kernel driver in use:") = false) :
    get_driver_loop lines = .ok none := by
  induction lines with
  | nil => rfl
  | cons l ls ih =>
    have hl := h l (List.mem_cons_self l ls)
    unfold get_driver_loop
    rw [hl]
    exact ih (fun x hx => h x (List.mem_cons_of_mem l hx))

theorem get_memory_address_loop_no_marker (lines : List PyStr)
    (h : ∀ l ∈ lines, pyContains l (pystr "Memory at") = false) :
    get_memory_address_loop lines = .ok none := by
  induction lines with
  | nil => rfl
  | cons l ls ih =>
    have hl := h l (List.mem_cons_self l ls)
    unfold get_memory_address_loop
    rw [hl]
    exact ih (fun x hx => h x (List.mem_cons_of_mem l hx))

theorem get_iommu_group_loop_no_marker (addr : PyStr) (lines : List PyStr)
    (h : ∀ l ∈ lines, pyContains l (pystr "IOMMU group") = false) :
    get_iommu_group_loop addr lines =
      .error (.valueError (addr ++ pystr " group not found")) := by
  induction lines with
  | nil => rfl
  | cons l ls ih =>
    have hl := h l (List.mem_cons_self l ls)
    unfold get_iommu_group_loop
    rw [hl]
    exact ih (fun x hx => h x (List.mem_cons_of_mem l hx))

/-- C6 is false as stated: on the non-empty output junk, which contains no
IOMMU group marker, `get_iommu_group` raises a ValueError naming the address
instead of returning None or an empty result. -/
theorem c6_counterexample :
    pystr "junk" ≠ [] ∧
    get_iommu_group (pystr "0000:00:1f.2") (pystr "junk") =
      .error (.valueError (pystr "0000:00:1f.2 group not found")) :=
  ⟨by decide, rfl⟩

/-- C6 (amended): on every non-empty output with no line containing the
expected marker, `get_driver` and `get_memory_address` return None, but
`get_iommu_group` raises a ValueError naming the address. -/
theorem c6_marker_free_outputs (output addr : PyStr)
    (hne : output ≠ [])
    (hdrv : ∀ l ∈ pySplitLines output,
      pyContains l (pystr "Kernel driver in use:") = false)
    (hmem : ∀ l ∈ pySplitLines output, pyContains l (pystr "Memory at") = false)
    (hgrp : ∀ l ∈ splitChar '\n' output, pyContains l (pystr "IOMMU group") = false) :
    get_driver output = .ok none ∧
    get_memory_address output = .ok none ∧
    get_iommu_group addr output =
      .error (.valueError (addr ++ pystr " group not found")) := by
  refine ⟨?_, ?_, ?_⟩
  · unfold get_driver
    rw [if_neg hne]
    exact get_driver_loop_no_marker _ hdrv
  · unfold get_memory_address
    rw [if_neg hne]
    exact get_memory_address_loop_no_marker _ hmem
  · unfold get_iommu_group
    exact get_iommu_group_loop_no_marker _ _ hgrp

/-- Witness for C6 (amended) on a concrete two-line marker-free output. -/
theorem c6_marker_free_outputs_witness :
    get_driver (pystr "junk\nlines") = .ok none ∧
    get_memory_address (pystr "junk\nlines") = .ok none ∧
    get_iommu_group (pystr "0000:03:00.0") (pystr "junk\nlines") =
      .error (.valueError (pystr "0000:03:00.0" ++ pystr " group not found")) :=
  c6_marker_free_outputs (pystr "junk\nlines") (pystr "0000:03:00.0")
    (by decide) (by decide) (by decide) (by decide)

theorem wait_for_eq_false_iff (polls : List Bool) :
    wait_for polls 5 = false ↔ ∀ b ∈ polls, b = false := by
  unfold wait_for
  simp [List.any_eq_false]

/-- C1: with the unbind write performed, `unbind` raises a ValueError naming
the address and driver iff `wait_for` reports the bound path as existing
(returns true), and returns normally exactly when every poll of the window
finds the path absent; `bind` is the inverse, raising iff `wait_for` returns
false and succeeding iff it returns true. -/
theorem c1_unbind_inverse_of_bind (driver addr : PyStr) (polls : List Bool) :
    (unbind driver addr true polls =
        .error (.valueError (pystr "Not able to unbind " ++ addr ++
          pystr " from " ++ driver)) ↔ wait_for polls 5 = true) ∧
    (unbind driver addr true polls = .ok () ↔ ∀ b ∈ polls, b = false) ∧
    (pci_bind driver addr true polls =
        .error (.valueError (pystr "Not able to bind " ++ addr ++
          pystr " to " ++ driver)) ↔ wait_for polls 5 = false) ∧
    (pci_bind driver addr true polls = .ok () ↔ wait_for polls 5 = true) := by
  by_cases h : wait_for polls 5 = true
  · have hmem : true ∈ polls := by
      unfold wait_for at h
      simpa using h
    refine ⟨?_, ?_, ?_, ?_⟩ <;> simp [unbind, pci_bind, h, hmem]
  · have hf : wait_for polls 5 = false := by simpa using h
    have hnot : true ∉ polls := by
      unfold wait_for at hf
      simpa using hf
    refine ⟨?_, ?_, ?_, ?_⟩ <;> simp [unbind, pci_bind, hf, hnot]

/-- Witness for C1: unbind succeeds on an all-absent window, bind succeeds
on a window that sees the path. -/
theorem c1_unbind_inverse_of_bind_witness :
    unbind (pystr "e1000e") (pystr "0000:00:1f.2") true [false, false] = .ok () ∧
    pci_bind (pystr "e1000e") (pystr "0000:00:1f.2") true [false, true] = .ok () :=
  ⟨(c1_unbind_inverse_of_bind (pystr "e1000e") (pystr "0000:00:1f.2")
      [false, false]).2.1.mpr (by decide),
   (c1_unbind_inverse_of_bind (pystr "e1000e") (pystr "0000:00:1f.2")
      [false, true]).2.2.2.mpr (by decide)⟩

/-- C2: each mutating operation (bind, reset, rescan, change_domain), with
its control-file write performed, returns normally iff its post-condition
predicate becomes true within the `wait_for` window, and otherwise raises a
ValueError naming the address and the attempted action. -/
theorem c2_mutating_operations (driver addr dom def_dom : PyStr)
    (polls : List Bool) (outputs : List PyStr) (reads : List (Option PyStr)) :
    (pci_bind driver addr true polls = .ok () ↔ wait_for polls 5 = true) ∧
    (wait_for polls 5 = false →
      pci_bind driver addr true polls =
        .error (.valueError (pystr "Not able to bind " ++ addr ++
          pystr " to " ++ driver))) ∧
    (reset addr true outputs = .ok () ↔
      wait_for (outputs.map reset_check) 5 = true) ∧
    (wait_for (outputs.map reset_check) 5 = false →
      reset addr true outputs =
        .error (.valueError (pystr "Unsuccessful to remove " ++ addr))) ∧
    (rescan addr true outputs = .ok () ↔
      wait_for (outputs.map rescan_check) 5 = true) ∧
    (wait_for (outputs.map rescan_check) 5 = false →
      rescan addr true outputs =
        .error (.valueError (pystr "Unsuccessful to rescan for " ++ addr))) ∧
    (change_domain dom def_dom addr true reads = .ok () ↔
      waitForE (reads.map (change_domain_check dom def_dom)) = .ok true) ∧
    (waitForE (reads.map (change_domain_check dom def_dom)) = .ok false →
      change_domain dom def_dom addr true reads =
        .error (.valueError (pystr "Domain type change failed for " ++ addr))) := by
  refine ⟨?_, ?_, ?_, ?_, ?_, ?_, ?_, ?_⟩
  · by_cases h : wait_for polls 5 = true
    · simp [pci_bind, h]
    · have hf : wait_for polls 5 = false := by simpa using h
      simp [pci_bind, hf]
  · intro h
    simp [pci_bind, h]
  · by_cases h : wait_for (outputs.map reset_check) 5 = true
    · simp [reset, h]
    · have hf : wait_for (outputs.map reset_check) 5 = false := by simpa using h
      simp [reset, hf]
  · intro h
    simp [reset, h]
  · by_cases h : wait_for (outputs.map rescan_check) 5 = true
    · simp [rescan, h]
    · have hf : wait_for (outputs.map rescan_check) 5 = false := by simpa using h
      simp [rescan, hf]
  · intro h
    simp [rescan, h]
  · cases hw : waitForE (reads.map (change_domain_check dom def_dom)) with
    | error e => simp [change_domain, hw]
    | ok b => cases b <;> simp [change_domain, hw]
  · intro h
    simp [change_domain, h]

/-- Witness for C2 on empty poll windows: all four operations fail, naming
the address. -/
theorem c2_mutating_operations_witness :
    pci_bind (pystr "d") (pystr "a") true [] =
      .error (.valueError (pystr "Not able to bind " ++ pystr "a" ++
        pystr " to " ++ pystr "d")) ∧
    reset (pystr "a") true [] =
      .error (.valueError (pystr "Unsuccessful to remove " ++ pystr "a")) ∧
    rescan (pystr "a") true [] =
      .error (.valueError (pystr "Unsuccessful to rescan for " ++ pystr "a")) ∧
    change_domain (pystr "dma") (pystr "dma") (pystr "a") true [] =
      .error (.valueError (pystr "Domain type change failed for " ++ pystr "a")) :=
  ⟨(c2_mutating_operations (pystr "d") (pystr "a") (pystr "dma") (pystr "dma")
      [] [] []).2.1 (by decide),
   (c2_mutating_operations (pystr "d") (pystr "a") (pystr "dma") (pystr "dma")
      [] [] []).2.2.2.1 (by decide),
   (c2_mutating_operations (pystr "d") (pystr "a") (pystr "dma") (pystr "dma")
      [] [] []).2.2.2.2.2.1 (by decide),
   (c2_mutating_operations (pystr "d") (pystr "a") (pystr "dma") (pystr "dma")
      [] [] []).2.2.2.2.2.2.2 (by rfl)⟩

/-- C9: over the modelled sysfs state, bind then unbind on a pair whose
device starts unbound returns the original state unchanged, and unbind then
bind on a pair whose device starts bound also returns the original state. -/
theorem c9_bind_unbind_roundtrip (s : SysfsBound) (driver addr : PyStr) :
    (s driver addr = false → bindThenUnbind s driver addr = .ok s) ∧
    (s driver addr = true → unbindThenBind s driver addr = .ok s) := by
  have hbindeq : kernelBindWrite s driver addr driver addr = true := by
    simp [kernelBindWrite]
  have hunbindeq : kernelUnbindWrite s driver addr driver addr = false := by
    simp [kernelUnbindWrite]
  constructor
  · intro h
    have hx : kernelUnbindWrite (kernelBindWrite s driver addr) driver addr
        driver addr = false := by
      simp [kernelUnbindWrite]
    have hstate : kernelUnbindWrite (kernelBindWrite s driver addr) driver addr = s := by
      funext d a
      by_cases hda : d = driver ∧ a = addr
      · obtain ⟨rfl, rfl⟩ := hda
        simp [kernelUnbindWrite, h]
      · simp [kernelUnbindWrite, kernelBindWrite, hda]
    have hb : bindState s driver addr = .ok (kernelBindWrite s driver addr) := by
      simp [bindState, hbindeq]
    have hu : unbindState (kernelBindWrite s driver addr) driver addr =
        .ok (kernelUnbindWrite (kernelBindWrite s driver addr) driver addr) := by
      simp [unbindState, hx]
    unfold bindThenUnbind
    rw [hb]
    show unbindState (kernelBindWrite s driver addr) driver addr = .ok s
    rw [hu, hstate]
  · intro h
    have hx : kernelBindWrite (kernelUnbindWrite s driver addr) driver addr
        driver addr = true := by
      simp [kernelBindWrite]
    have hstate : kernelBindWrite (kernelUnbindWrite s driver addr) driver addr = s := by
      funext d a
      by_cases hda : d = driver ∧ a = addr
      · obtain ⟨rfl, rfl⟩ := hda
        simp [kernelBindWrite, h]
      · simp [kernelBindWrite, kernelUnbindWrite, hda]
    have hu : unbindState s driver addr = .ok (kernelUnbindWrite s driver addr) := by
      simp [unbindState, hunbindeq]
    have hb : bindState (kernelUnbindWrite s driver addr) driver addr =
        .ok (kernelBindWrite (kernelUnbindWrite s driver addr) driver addr) := by
      simp [bindState, hx]
    unfold unbindThenBind
    rw [hu]
    show bindState (kernelUnbindWrite s driver addr) driver addr = .ok s
    rw [hb, hstate]

/-- Witness for C9 at the everywhere-unbound and everywhere-bound states. -/
theorem c9_bind_unbind_roundtrip_witness :
    bindThenUnbind (fun _ _ => false) (pystr "d") (pystr "a") =
      .ok (fun _ _ => false) ∧
    unbindThenBind (fun _ _ => true) (pystr "d") (pystr "a") =
      .ok (fun _ _ => true) :=
  ⟨(c9_bind_unbind_roundtrip (fun _ _ => false) (pystr "d") (pystr "a")).1 rfl,
   (c9_bind_unbind_roundtrip (fun _ _ => true) (pystr "d") (pystr "a")).2 rfl⟩

theorem get_pci_addresses_loop_ok (classOf : PyStr → Option PyStr)
    (lines : List PyStr) :
    ∀ acc : List PyStr,
      (∀ l ∈ lines, pyWords l ≠ []) →
      (∀ l ∈ lines, classOf ((pyWords l).headD []) ≠ none) →
      get_pci_addresses_loop classOf acc lines =
        .ok (acc ++ pciAddressSelection classOf lines) := by
  induction lines with
  | nil =>
    intro acc h1 h2
    simp [get_pci_addresses_loop, pciAddressSelection]
  | cons l ls ih =>
    intro acc h1 h2
    have hw := h1 l (List.mem_cons_self l ls)
    have hc := h2 l (List.mem_cons_self l ls)
    obtain ⟨t, ts, ht⟩ : ∃ t ts, pyWords l = t :: ts := by
      cases hpw : pyWords l with
      | nil => exact absurd hpw hw
      | cons t ts => exact ⟨t, ts, rfl⟩
    rw [ht] at hc
    obtain ⟨cls, hcls⟩ : ∃ cls, classOf t = some cls := by
      cases hco : classOf t with
      | none => exact absurd hco hc
      | some c => exact ⟨c, rfl⟩
    have h1r : ∀ x ∈ ls, pyWords x ≠ [] :=
      fun x hx => h1 x (List.mem_cons_of_mem l hx)
    have h2r : ∀ x ∈ ls, classOf ((pyWords x).headD []) ≠ none :=
      fun x hx => h2 x (List.mem_cons_of_mem l hx)
    by_cases hst : pyStartsWith cls (pystr "06") = true
    · have hloop : get_pci_addresses_loop classOf acc (l :: ls) =
          get_pci_addresses_loop classOf acc ls := by
        simp [get_pci_addresses_loop, ht, hcls, hst]
      have hsel : pciAddressSelection classOf (l :: ls) =
          pciAddressSelection classOf ls := by
        simp [pciAddressSelection, ht, hcls, hst]
      rw [hloop, hsel, ih acc h1r h2r]
    · have hstf : pyStartsWith cls (pystr "06") = false := by simpa using hst
      have hloop : get_pci_addresses_loop classOf acc (l :: ls) =
          get_pci_addresses_loop classOf (acc ++ [t]) ls := by
        simp [get_pci_addresses_loop, ht, hcls, hstf]
      have hsel : pciAddressSelection classOf (l :: ls) =
          t :: pciAddressSelection classOf ls := by
        simp [pciAddressSelection, List.filterMap_cons, ht, hcls, hstf]
      rw [hloop, hsel, ih (acc ++ [t]) h1r h2r]
      simp

/-- C10: for every lspci -D output in which each line has a first
whitespace-separated token whose Class property is available,
`get_pci_addresses` returns exactly the first token of each line whose
class does not start with 06, preserving line order. -/
theorem c10_get_pci_addresses (classOf : PyStr → Option PyStr) (output : PyStr)
    (h1 : ∀ l ∈ pySplitLines output, pyWords l ≠ [])
    (h2 : ∀ l ∈ pySplitLines output, classOf ((pyWords l).headD []) ≠ none) :
    get_pci_addresses classOf output =
      .ok (pciAddressSelection classOf (pySplitLines output)) := by
  unfold get_pci_addresses
  rw [get_pci_addresses_loop_ok classOf (pySplitLines output) [] h1 h2]
  rfl

/-- Witness for C10: a two-line listing where the second device is a PCI
bridge (class 0604), which is excluded. -/
theorem c10_get_pci_addresses_witness :
    get_pci_addresses
        (fun t => if t = pystr "0000:00:02.0" then some (pystr "0300")
          else some (pystr "0604"))
        (pystr "0000:00:02.0 VGA compatible controller\n0000:00:1c.0 PCI bridge") =
      .ok (pciAddressSelection
        (fun t => if t = pystr "0000:00:02.0" then some (pystr "0300")
          else some (pystr "0604"))
        (pySplitLines
          (pystr "0000:00:02.0 VGA compatible controller\n0000:00:1c.0 PCI bridge"))) :=
  c10_get_pci_addresses
    (fun t => if t = pystr "0000:00:02.0" then some (pystr "0300")
      else some (pystr "0604"))
    (pystr "0000:00:02.0 VGA compatible controller\n0000:00:1c.0 PCI bridge")
    (by decide) (by decide)
